import Mathlib

/-!
Shallow embedding of the matching, discovery, chat and block subsystem of the
dating backend (Express and Mongoose). Users, matches and chat messages are
modelled as records held in lists; Mongo document ids become natural numbers and
timestamps become naturals. Each route handler becomes a pure function from a
database value (plus the request parameters and the fresh ids and clock values
the store would generate) to a response together with the successor database.
An error response leaves the database component unchanged, mirroring handlers
that return before any write.
-/

/-- A document of the users collection (userSchema). Only the fields the
verified routes read or write are carried; ids are naturals standing for
ObjectIds. -/
structure UserDoc where
  uid : Nat
  isActive : Bool := true
  isBlocked : Bool := false
  profileCompleted : Bool := true
  location : Option (Int × Int) := none
  likes : List Nat := []
  likedBy : List Nat := []
  «matches» : List Nat := []
  blocked : List Nat := []
  blockedBy : List Nat := []
  isPremium : Bool := false
  premiumExpiresAt : Option Nat := none
deriving Repr, DecidableEq

/-- A document of the matches collection (matchSchema). The unreadCount Map is
modelled as a total function with the get-or-zero reading that the schema
methods use (`this.unreadCount.get(k) || 0`). -/
structure MatchDoc where
  mid : Nat
  users : List Nat
  isActive : Bool := true
  lastMessageAt : Nat := 0
  unreadCount : Nat → Nat := fun _ => 0

/-- A document of the chats collection (chatSchema). -/
structure ChatDoc where
  cid : Nat
  matchId : Nat
  sender : Nat
  message : String := ""
  isRead : Bool := false
  readAt : Option Nat := none
  isDeleted : Bool := false
  deletedAt : Option Nat := none
  createdAt : Nat := 0
deriving Repr, DecidableEq

/-- The persistent store: the three collections the verified routes touch. -/
structure DB where
  users : List UserDoc
  «matches» : List MatchDoc
  chats : List ChatDoc

/-- Model.findById on the users collection. -/
def findUser (db : DB) (uid : Nat) : Option UserDoc :=
  db.users.find? (fun v => v.uid == uid)

/-- Model.findById on the matches collection. -/
def findMatch (db : DB) (mid : Nat) : Option MatchDoc :=
  db.«matches».find? (fun m => m.mid == mid)

/-- document.save() on a user: the stored document with the same id is replaced
by the in-memory one. -/
def saveUser (db : DB) (u : UserDoc) : DB :=
  { db with users := db.users.map (fun v => if v.uid == u.uid then u else v) }

/-- document.save() on a match. -/
def saveMatch (db : DB) (m : MatchDoc) : DB :=
  { db with «matches» := db.«matches».map (fun x => if x.mid == m.mid then m else x) }

/-- matchSchema.methods.hasUser: whether a user id is one of the participants. -/
def MatchDoc.hasUser (m : MatchDoc) (uid : Nat) : Bool :=
  m.users.any (fun u => u == uid)

/-- matchSchema.methods.getOtherUser: the first participant different from the
given id (undefined, hence none, when there is no such participant). -/
def MatchDoc.getOtherUser (m : MatchDoc) (uid : Nat) : Option Nat :=
  m.users.find? (fun u => u != uid)

/-- matchSchema.methods.incrementUnread: set(uid, (get(uid) or 0) + 1). -/
def MatchDoc.incrementUnread (m : MatchDoc) (uid : Nat) : MatchDoc :=
  { m with unreadCount := fun x => if x = uid then m.unreadCount uid + 1 else m.unreadCount x }

/-- matchSchema.methods.resetUnread: set(uid, 0). -/
def MatchDoc.resetUnread (m : MatchDoc) (uid : Nat) : MatchDoc :=
  { m with unreadCount := fun x => if x = uid then 0 else m.unreadCount x }

/-- userSchema.methods.isPremiumActive, with the clock passed explicitly. -/
def UserDoc.isPremiumActive (u : UserDoc) (now : Nat) : Bool :=
  if !u.isPremium then false
  else match u.premiumExpiresAt with
    | none => true
    | some t => now < t

/-- The error responses the handlers produce (HTTP 400, 404, 403, 500). -/
inductive ApiError
  | badRequest
  | notFound
  | forbidden
  | serverError
deriving Repr, DecidableEq

/-- The body of a successful like response: the isMatch flag and, when a match
was created, its id. -/
structure LikeResp where
  isMatch : Bool
  matchId : Option Nat
deriving Repr, DecidableEq

/-- The local snapshots the like handler holds across its await points: the
documents returned by the two findById calls. -/
structure LikeSnap where
  targetUser : UserDoc
  currentUser : UserDoc
deriving Repr, DecidableEq

/-- POST /api/discovery/like, first segment: the self-like guard, the
User.findById(targetUserId) read with the existence and availability checks,
the User.findById(currentUserId) read, and the already-liked guard. The two
documents read become the handler local snapshots. -/
def likeReadPhase (db : DB) (currentUserId targetUserId : Nat) :
    Except ApiError LikeSnap :=
  if targetUserId == currentUserId then .error .badRequest
  else match findUser db targetUserId with
    | none => .error .notFound
    | some targetUser =>
      if !targetUser.isActive || targetUser.isBlocked then .error .badRequest
      else match findUser db currentUserId with
        | none => .error .serverError
        | some currentUser =>
          if currentUser.likes.contains targetUserId then .error .badRequest
          else .ok ⟨targetUser, currentUser⟩

/-- POST /api/discovery/like, second segment:
currentUser.likes.push(targetUserId) followed by currentUser.save(). The push
mutates the local snapshot as well. -/
def likeSavePhase (db : DB) (snap : LikeSnap) (targetUserId : Nat) :
    LikeSnap × DB :=
  let cur1 := { snap.currentUser with likes := snap.currentUser.likes ++ [targetUserId] }
  (⟨snap.targetUser, cur1⟩, saveUser db cur1)

/-- POST /api/discovery/like, third segment: the mutual-like test on the
targetUser snapshot (read before the save), Match.create with the matchSchema
pre-save validation (exactly two distinct users), the matches.push on both
snapshots and the Promise.all of the two saves. -/
def likeMatchPhase (db : DB) (snap : LikeSnap)
    (currentUserId targetUserId newMid now : Nat) :
    Except ApiError LikeResp × DB :=
  if snap.targetUser.likes.contains currentUserId then
    if currentUserId == targetUserId then (.error .serverError, db)
    else
      let newMatch : MatchDoc :=
        { mid := newMid, users := [currentUserId, targetUserId],
          isActive := true, lastMessageAt := now, unreadCount := fun _ => 0 }
      let db1 : DB := { db with «matches» := db.«matches» ++ [newMatch] }
      let cur2 := { snap.currentUser with «matches» := snap.currentUser.«matches» ++ [targetUserId] }
      let tgt1 := { snap.targetUser with «matches» := snap.targetUser.«matches» ++ [currentUserId] }
      let db2 := saveUser (saveUser db1 cur2) tgt1
      (.ok { isMatch := true, matchId := some newMid }, db2)
  else (.ok { isMatch := false, matchId := none }, db)

/-- POST /api/discovery/like: the full handler is the sequential composition of
the three segments, the boundaries being its await points. newMid is the
ObjectId the store would mint for Match.create and now is the clock. -/
def likeUser (db : DB) (currentUserId targetUserId newMid now : Nat) :
    Except ApiError LikeResp × DB :=
  match likeReadPhase db currentUserId targetUserId with
  | .error e => (.error e, db)
  | .ok snap =>
    let step := likeSavePhase db snap targetUserId
    likeMatchPhase step.2 step.1 currentUserId targetUserId newMid now

/-- A document found by id carries that id. -/
theorem uid_of_findUser {db : DB} {x : Nat} {u : UserDoc}
    (h : findUser db x = some u) : u.uid = x := by
  have hp := List.find?_some h
  simpa using hp

/-- A match found by id carries that id. -/
theorem mid_of_findMatch {db : DB} {x : Nat} {m : MatchDoc}
    (h : findMatch db x = some m) : m.mid = x := by
  have hp := List.find?_some h
  simpa using hp

/-- Replacing, in a list, every element that shares a key with u by u itself
makes the lookup of that key return u, provided the key was present. -/
theorem findKey_map_update_self {α : Type} (key : α → Nat) (u : α) (l : List α)
    (h : (l.find? (fun v => key v == key u)).isSome = true) :
    (l.map (fun v => if key v == key u then u else v)).find?
      (fun v => key v == key u) = some u := by
  induction l with
  | nil => simp [List.find?] at h
  | cons a t ih =>
    by_cases hc : (key a == key u) = true
    · rw [List.map_cons, if_pos hc, List.find?_cons]
      simp
    · have hcf : (key a == key u) = false := by simpa using hc
      rw [List.find?_cons, hcf] at h
      rw [List.map_cons, if_neg hc, List.find?_cons, hcf]
      exact ih h

/-- The same replacement leaves the lookup of any other key unchanged. -/
theorem findKey_map_update_other {α : Type} (key : α → Nat) (u : α) (x : Nat)
    (l : List α) (hx : ¬ key u = x) :
    (l.map (fun v => if key v == key u then u else v)).find?
      (fun v => key v == x) = l.find? (fun v => key v == x) := by
  have hux : (key u == x) = false := by simpa using hx
  induction l with
  | nil => rfl
  | cons a t ih =>
    by_cases hc : (key a == key u) = true
    · have hau : key a = key u := by simpa using hc
      have hax : (key a == x) = false := by simpa [hau] using hx
      rw [List.map_cons, if_pos hc, List.find?_cons, hux, List.find?_cons, hax]
      exact ih
    · rw [List.map_cons, if_neg hc, List.find?_cons, List.find?_cons]
      by_cases hax : (key a == x) = true
      · rw [hax]
      · have haxf : (key a == x) = false := by simpa using hax
        rw [haxf]
        exact ih

/-- Saving a user document makes findUser of its id return it, provided a
document with that id was stored. -/
theorem findUser_saveUser_self (db : DB) (u : UserDoc) (x : Nat)
    (hu : u.uid = x) (h : (findUser db x).isSome = true) :
    findUser (saveUser db u) x = some u := by
  subst hu
  have h' : (db.users.find? (fun v => v.uid == u.uid)).isSome = true := h
  show (db.users.map (fun v => if v.uid == u.uid then u else v)).find?
    (fun v => v.uid == u.uid) = some u
  exact findKey_map_update_self (fun v => v.uid) u db.users h'

/-- Saving a user document leaves findUser of every other id unchanged. -/
theorem findUser_saveUser_other (db : DB) (u : UserDoc) (x : Nat)
    (hx : ¬ u.uid = x) :
    findUser (saveUser db u) x = findUser db x := by
  show (db.users.map (fun v => if v.uid == u.uid then u else v)).find?
    (fun v => v.uid == x) = db.users.find? (fun v => v.uid == x)
  exact findKey_map_update_other (fun v => v.uid) u x db.users hx

/-- Saving a match document makes findMatch of its id return it, provided a
match with that id was stored. -/
theorem findMatch_saveMatch_self (db : DB) (m : MatchDoc) (x : Nat)
    (hm : m.mid = x) (h : (findMatch db x).isSome = true) :
    findMatch (saveMatch db m) x = some m := by
  subst hm
  have h' : (db.«matches».find? (fun v => v.mid == m.mid)).isSome = true := h
  show (db.«matches».map (fun v => if v.mid == m.mid then m else v)).find?
    (fun v => v.mid == m.mid) = some m
  exact findKey_map_update_self (fun v => v.mid) m db.«matches» h'

/-- Saving a match document leaves findMatch of every other id unchanged. -/
theorem findMatch_saveMatch_other (db : DB) (m : MatchDoc) (x : Nat)
    (hx : ¬ m.mid = x) :
    findMatch (saveMatch db m) x = findMatch db x := by
  show (db.«matches».map (fun v => if v.mid == m.mid then m else v)).find?
    (fun v => v.mid == x) = db.«matches».find? (fun v => v.mid == x)
  exact findKey_map_update_other (fun v => v.mid) m x db.«matches» hx

/-- C1: for distinct users A and B where the like is accepted (target exists,
is active and unblocked, and A has not liked B before): if the likes of B
already contain A, likeUser appends B to the likes of A, creates exactly one
new Match whose participants are A and B, appends each id to the matches list
of the other user, and responds isMatch true with the match id; if the likes of
B do not contain A, the response is isMatch false and the matches collection is
unchanged, so no Match is created. -/
theorem likeUser_mutual_creates_match (db : DB) (A B newMid now : Nat)
    (a b : UserDoc)
    (hAB : ¬ B = A)
    (hA : findUser db A = some a) (hB : findUser db B = some b)
    (hbActive : b.isActive = true) (hbBlocked : b.isBlocked = false)
    (hnotliked : a.likes.contains B = false) :
    (b.likes.contains A = true →
      (likeUser db A B newMid now).1 = .ok { isMatch := true, matchId := some newMid } ∧
      (likeUser db A B newMid now).2.«matches» = db.«matches» ++
        [{ mid := newMid, users := [A, B], isActive := true,
           lastMessageAt := now, unreadCount := fun _ => 0 }] ∧
      findUser (likeUser db A B newMid now).2 A =
        some { a with likes := a.likes ++ [B], «matches» := a.«matches» ++ [B] } ∧
      findUser (likeUser db A B newMid now).2 B =
        some { b with «matches» := b.«matches» ++ [A] }) ∧
    (b.likes.contains A = false →
      (likeUser db A B newMid now).1 = .ok { isMatch := false, matchId := none } ∧
      (likeUser db A B newMid now).2.«matches» = db.«matches» ∧
      findUser (likeUser db A B newMid now).2 A =
        some { a with likes := a.likes ++ [B] }) := by
  have huA : a.uid = A := uid_of_findUser hA
  have huB : b.uid = B := uid_of_findUser hB
  have hBA : (B == A) = false := by simpa using hAB
  have hABne : ¬ A = B := fun h => hAB h.symm
  have hnot' : B ∉ a.likes := by simpa using hnotliked
  have hread : likeReadPhase db A B = .ok ⟨b, a⟩ := by
    unfold likeReadPhase
    simp [hBA, hB, hbActive, hbBlocked, hA, hnot']
  constructor
  · intro hmut
    have hmut' : A ∈ b.likes := by simpa using hmut
    have heq : likeUser db A B newMid now =
        (.ok { isMatch := true, matchId := some newMid },
          saveUser (saveUser
            { saveUser db { a with likes := a.likes ++ [B] } with
                «matches» := db.«matches» ++
                  [{ mid := newMid, users := [A, B], isActive := true,
                     lastMessageAt := now, unreadCount := fun _ => 0 }] }
            { a with likes := a.likes ++ [B], «matches» := a.«matches» ++ [B] })
            { b with «matches» := b.«matches» ++ [A] }) := by
      unfold likeUser
      rw [hread]
      show likeMatchPhase (saveUser db { a with likes := a.likes ++ [B] })
        ⟨b, { a with likes := a.likes ++ [B] }⟩ A B newMid now = _
      unfold likeMatchPhase
      rw [if_pos hmut, if_neg (show ¬ (A == B) = true by simp [hABne])]
      rfl
    refine ⟨?_, ?_, ?_, ?_⟩
    · rw [heq]
    · rw [heq]
      rfl
    · rw [heq]
      rw [findUser_saveUser_other _ _ _ (by show ¬ b.uid = A; rw [huB]; exact hAB)]
      have hsome : (findUser
          { saveUser db { a with likes := a.likes ++ [B] } with
              «matches» := db.«matches» ++
                [{ mid := newMid, users := [A, B], isActive := true,
                   lastMessageAt := now, unreadCount := fun _ => 0 }] } A).isSome = true := by
        show (findUser (saveUser db { a with likes := a.likes ++ [B] }) A).isSome = true
        rw [findUser_saveUser_self db _ A (by show a.uid = A; exact huA) (by rw [hA]; rfl)]
        rfl
      exact findUser_saveUser_self _ _ A (by show a.uid = A; exact huA) hsome
    · rw [heq]
      have hother : findUser (saveUser
          { saveUser db { a with likes := a.likes ++ [B] } with
              «matches» := db.«matches» ++
                [{ mid := newMid, users := [A, B], isActive := true,
                   lastMessageAt := now, unreadCount := fun _ => 0 }] }
          { a with likes := a.likes ++ [B], «matches» := a.«matches» ++ [B] }) B
          = some b := by
        rw [findUser_saveUser_other _ _ _ (by show ¬ a.uid = B; rw [huA]; exact fun h => hAB h.symm)]
        show findUser (saveUser db { a with likes := a.likes ++ [B] }) B = some b
        rw [findUser_saveUser_other _ _ _ (by show ¬ a.uid = B; rw [huA]; exact fun h => hAB h.symm)]
        exact hB
      exact findUser_saveUser_self _ _ B (by show b.uid = B; exact huB) (by rw [hother]; rfl)
  · intro hnomut
    have hnomut' : A ∉ b.likes := by simpa using hnomut
    have heq : likeUser db A B newMid now =
        (.ok { isMatch := false, matchId := none },
          saveUser db { a with likes := a.likes ++ [B] }) := by
      unfold likeUser
      rw [hread]
      show likeMatchPhase (saveUser db { a with likes := a.likes ++ [B] })
        ⟨b, { a with likes := a.likes ++ [B] }⟩ A B newMid now = _
      unfold likeMatchPhase
      simp [hnomut']
    refine ⟨?_, ?_, ?_⟩
    · rw [heq]
    · rw [heq]
      rfl
    · rw [heq]
      exact findUser_saveUser_self _ _ A (by show a.uid = A; exact huA) (by rw [hA]; rfl)

/-- User 1 of the C1 witness state: has liked nobody yet. -/
def aW1 : UserDoc := { uid := 1 }

/-- User 2 of the C1 witness state: has already liked user 1. -/
def bW1 : UserDoc := { uid := 2, likes := [1] }

/-- C1 witness state: two users, no matches, no chats. -/
def dbW1 : DB := { users := [aW1, bW1], «matches» := [], chats := [] }

/-- Witness for C1 at a concrete state: user 1 likes user 2 who already liked
user 1, and the response is a match. -/
theorem likeUser_mutual_creates_match_witness :
    (likeUser dbW1 1 2 100 5).1 = .ok { isMatch := true, matchId := some 100 } :=
  ((likeUser_mutual_creates_match dbW1 1 2 100 5 aW1 bW1 (by decide)
    rfl rfl rfl rfl rfl).1 rfl).1

/-- C2 state: user 2 has already liked user 1; no match exists yet. -/
def dbC2 : DB :=
  { users := [{ uid := 1 }, { uid := 2, likes := [1] }], «matches» := [], chats := [] }

/-- Interleaved execution of two concurrent identical POST /api/discovery/like
requests from user currentUserId for user targetUserId, against the same
store. Each request is the sequence read - save - match of the handler
segments, the boundaries being its await points; in this schedule both
requests perform their reads before either performs its save, which the
single-threaded event loop permits because every findById is an await point.
Returns none if either read phase rejects the request. -/
def likeConcurrentTrace (db : DB) (currentUserId targetUserId mid1 mid2 now : Nat) :
    Option DB :=
  match likeReadPhase db currentUserId targetUserId,
        likeReadPhase db currentUserId targetUserId with
  | .ok snapR1, .ok snapR2 =>
    let step1 := likeSavePhase db snapR1 targetUserId
    let step2 := likeSavePhase step1.2 snapR2 targetUserId
    let step3 := likeMatchPhase step2.2 step1.1 currentUserId targetUserId mid1 now
    let step4 := likeMatchPhase step3.2 step2.1 currentUserId targetUserId mid2 now
    some step4.2
  | _, _ => none

/-- C2 fails on the code: from a state where user 2 already likes user 1, two
concurrently submitted like requests of user 1 for user 2 both pass the
already-liked guard (both read before either save) and both see the mutual
like, so each creates a Match; the final store holds two active Match records
for the pair of users 1 and 2, violating the at-most-one-active-match
invariant. Nothing in the schema or the handler (no unique index on the
participant pair, no transaction) prevents this. -/
theorem concurrent_likes_create_duplicate_matches :
    (likeConcurrentTrace dbC2 1 2 101 102 7).map
      (fun db => (db.«matches».filter (fun m => m.isActive && m.users == [1, 2])).length)
      = some 2 := by
  rfl

/-- The Mongo query condition built by GET /api/discovery: not the seeker
itself, active, not blocked, profile complete, inside the geospatial window
(the near parameter stands for the $near window of the store), and not among
the likes, blocked and blockedBy ids of the seeker (the $nin list). -/
def discoveryQueryFilter (user : UserDoc) (near : Option (Int × Int) → Bool)
    (u : UserDoc) : Bool :=
  u.uid != user.uid && u.isActive && !u.isBlocked && u.profileCompleted &&
    near u.location &&
    !((user.likes ++ user.blocked ++ user.blockedBy).contains u.uid)

/-- GET /api/discovery: the store evaluates the query against the users
collection; geoSort stands for the proximity ordering of the $near index (a
behavior of the external store), after which skip and limit paginate. Fails
400 when the seeker has no location. The distance annotation step maps over
the returned documents without changing which users are returned; its distance
function is modelled separately as calculateDistance. Read-only: the database
is not changed. -/
def discover (db : DB) (userId page limit : Nat)
    (near : Option (Int × Int) → Bool) (geoSort : List UserDoc → List UserDoc) :
    Except ApiError (List UserDoc) :=
  match findUser db userId with
  | none => .error .serverError
  | some user =>
    match user.location with
    | none => .error .badRequest
    | some _ =>
      .ok (((geoSort (db.users.filter (discoveryQueryFilter user near))).drop
        ((page - 1) * limit)).take limit)

/-- C3: every user returned by discovery differs from the seeker, is active,
not blocked and profile complete, and lies in none of the likes, blocked and
blockedBy sets of the seeker, so the intersection of the result id set with
those three sets is empty. geoSort is only assumed to reorder the documents
the query matched, as a proximity index does. -/
theorem discover_excludes_seeker_and_social_sets (db : DB)
    (userId page limit : Nat)
    (near : Option (Int × Int) → Bool) (geoSort : List UserDoc → List UserDoc)
    (hgeo : ∀ l, List.Perm (geoSort l) l)
    (user : UserDoc) (hu : findUser db userId = some user)
    (res : List UserDoc)
    (hres : discover db userId page limit near geoSort = .ok res)
    (u : UserDoc) (hmem : u ∈ res) :
    ¬ u.uid = userId ∧ u.isActive = true ∧ u.isBlocked = false ∧
    u.profileCompleted = true ∧
    u.uid ∉ user.likes ∧ u.uid ∉ user.blocked ∧ u.uid ∉ user.blockedBy := by
  have huid : user.uid = userId := uid_of_findUser hu
  cases hloc : user.location with
  | none => simp [discover, hu, hloc] at hres
  | some p =>
    have hres' : res = ((geoSort
        (db.users.filter (discoveryQueryFilter user near))).drop
        ((page - 1) * limit)).take limit := by
      simp [discover, hu, hloc] at hres
      exact hres.symm
    rw [hres'] at hmem
    have h1 : u ∈ (geoSort (db.users.filter (discoveryQueryFilter user near))).drop
        ((page - 1) * limit) := List.take_subset _ _ hmem
    have h2 : u ∈ geoSort (db.users.filter (discoveryQueryFilter user near)) :=
      List.drop_subset _ _ h1
    have h3 : u ∈ db.users.filter (discoveryQueryFilter user near) :=
      (hgeo _).mem_iff.mp h2
    have h4 : discoveryQueryFilter user near u = true := List.of_mem_filter h3
    unfold discoveryQueryFilter at h4
    simp only [Bool.and_eq_true, bne_iff_ne, ne_eq, Bool.not_eq_true'] at h4
    rw [huid] at h4
    obtain ⟨⟨⟨⟨⟨hne, hact⟩, hblk⟩, hcomp⟩, hnear⟩, hcont⟩ := h4
    have hnin : u.uid ∉ user.likes ∧ u.uid ∉ user.blocked ∧ u.uid ∉ user.blockedBy := by
      simpa [not_or] using hcont
    exact ⟨hne, hact, hblk, hcomp, hnin.1, hnin.2.1, hnin.2.2⟩

/-- Seeker of the C3 witness state: located, with one liked, one blocked and
one blocking user. -/
def uw1 : UserDoc :=
  { uid := 1, location := some (0, 0), likes := [3], blocked := [4], blockedBy := [5] }

/-- Eligible candidate of the C3 witness state. -/
def uw2 : UserDoc := { uid := 2 }

/-- C3 witness state: the seeker, one eligible candidate, and one user in each
exclusion set. -/
def dbW3 : DB :=
  { users := [uw1, uw2, { uid := 3 }, { uid := 4 }, { uid := 5 }],
    «matches» := [], chats := [] }

/-- Witness for C3 at a concrete state: the returned candidate is not the
seeker, is available, and is in none of the three exclusion sets. -/
theorem discover_excludes_seeker_and_social_sets_witness :
    ¬ uw2.uid = 1 ∧ uw2.isActive = true ∧ uw2.isBlocked = false ∧
    uw2.profileCompleted = true ∧
    uw2.uid ∉ uw1.likes ∧ uw2.uid ∉ uw1.blocked ∧ uw2.uid ∉ uw1.blockedBy :=
  discover_excludes_seeker_and_social_sets dbW3 1 1 20 (fun _ => true)
    (fun l => l) (fun l => List.Perm.refl l) uw1 rfl [uw2] rfl uw2
    (List.mem_singleton.mpr rfl)

/-- POST /api/users/block/:userId: self-block guard, target existence check,
then on the blocker document only: push the target onto blocked unless already
present, drop the target from likes and from matches, save. The target
document is never read for writing and never saved. -/
def blockUser (db : DB) (userId targetUserId : Nat) : Except ApiError Unit × DB :=
  if targetUserId == userId then (.error .badRequest, db)
  else match findUser db targetUserId with
    | none => (.error .notFound, db)
    | some _ =>
      match findUser db userId with
      | none => (.error .serverError, db)
      | some user =>
        let user1 := { user with
          blocked := if user.blocked.contains targetUserId then user.blocked
                     else user.blocked ++ [targetUserId],
          likes := user.likes.filter (fun i => i != targetUserId),
          «matches» := user.«matches».filter (fun i => i != targetUserId) }
        (.ok (), saveUser db user1)

/-- DELETE /api/users/block/:userId: drops the target from the blocked list of
the caller and saves; no existence check on the target, and again only the
caller document is touched. -/
def unblockUser (db : DB) (userId targetUserId : Nat) : Except ApiError Unit × DB :=
  match findUser db userId with
  | none => (.error .serverError, db)
  | some user =>
    (.ok (), saveUser db
      { user with blocked := user.blocked.filter (fun i => i != targetUserId) })

/-- C4 state: two users with empty social sets. -/
def dbC4 : DB := { users := [{ uid := 1 }, { uid := 2 }], «matches» := [], chats := [] }

/-- C4 fails on the code: after user 1 blocks user 2 from a clean state, user 2
is in the blocked set of user 1, yet user 1 is not in the blockedBy set of
user 2 - the block handler never updates the target document (and the unblock
handler never clears a blockedBy entry), so the inverse-pair invariant between
blocked and blockedBy is not maintained anywhere in the code. -/
theorem blockUser_never_writes_target_blockedBy :
    (blockUser dbC4 1 2).1 = .ok () ∧
    ((findUser (blockUser dbC4 1 2).2 1).map UserDoc.blocked) = some [2] ∧
    ((findUser (blockUser dbC4 1 2).2 2).map UserDoc.blockedBy) = some [] :=
  ⟨rfl, rfl, rfl⟩

/-- Blocker of the C10 witness state: has liked and matched the target. -/
def aW10 : UserDoc := { uid := 1, likes := [2], «matches» := [2] }

/-- C10 witness state: blocker, target, and an active match between them. -/
def dbW10 : DB :=
  { users := [aW10, { uid := 2, likes := [1], «matches» := [1] }],
    «matches» := [{ mid := 50, users := [1, 2] }], chats := [] }

/-- C10: blocking mutates only the blocker document: the target is appended to
the blocked list unless already there (no duplicate entry), the target is
dropped from the likes and matches lists of the blocker, every other user
document (the target included) is unchanged, and the matches and chats
collections are untouched - in particular no Match record is deactivated, so
an existing match between the two stays exactly as found for chat lookups. -/
theorem blockUser_frame (db : DB) (A B : Nat) (a t : UserDoc)
    (hBA : ¬ B = A)
    (ht : findUser db B = some t)
    (ha : findUser db A = some a) :
    (blockUser db A B).1 = .ok () ∧
    findUser (blockUser db A B).2 A = some { a with
      blocked := if a.blocked.contains B then a.blocked else a.blocked ++ [B],
      likes := a.likes.filter (fun i => i != B),
      «matches» := a.«matches».filter (fun i => i != B) } ∧
    (∀ x, ¬ x = A → findUser (blockUser db A B).2 x = findUser db x) ∧
    (blockUser db A B).2.«matches» = db.«matches» ∧
    (blockUser db A B).2.chats = db.chats ∧
    (∀ mid, findMatch (blockUser db A B).2 mid = findMatch db mid) := by
  have huA : a.uid = A := uid_of_findUser ha
  have hBAf : (B == A) = false := by simpa using hBA
  have heq : blockUser db A B = (.ok (), saveUser db { a with
      blocked := if a.blocked.contains B then a.blocked else a.blocked ++ [B],
      likes := a.likes.filter (fun i => i != B),
      «matches» := a.«matches».filter (fun i => i != B) }) := by
    unfold blockUser
    simp [hBAf, ht, ha]
  refine ⟨?_, ?_, ?_, ?_, ?_, ?_⟩
  · rw [heq]
  · rw [heq]
    exact findUser_saveUser_self _ _ A (by show a.uid = A; exact huA) (by rw [ha]; rfl)
  · intro x hx
    rw [heq]
    exact findUser_saveUser_other _ _ x
      (by show ¬ a.uid = x; rw [huA]; exact fun h => hx h.symm)
  · rw [heq]
    rfl
  · rw [heq]
    rfl
  · intro mid
    rw [heq]
    rfl

/-- Witness for C10 at a concrete state: the block call succeeds there. -/
theorem blockUser_frame_witness : (blockUser dbW10 1 2).1 = .ok () :=
  (blockUser_frame dbW10 1 2 aW10 { uid := 2, likes := [1], «matches» := [1] }
    (by decide) rfl rfl).1

/-- POST /api/chats/:matchId: guards (match exists and is active, sender is a
participant), Chat.create (whose pre-save hook writes lastMessageAt of the
match through findByIdAndUpdate), then incrementUnread for the other
participant followed by match.save(); run sequentially the persisted match
document carries the new lastMessageAt and the incremented counter. Should
getOtherUser find nobody, the handler would throw on undefined and answer 500
after the message was already persisted and the hook already ran, which the
serverError branch mirrors. -/
def sendMessage (db : DB) (matchId senderId : Nat) (msg : String)
    (newCid now : Nat) : Except ApiError ChatDoc × DB :=
  match findMatch db matchId with
  | none => (.error .notFound, db)
  | some m =>
    if !m.isActive then (.error .notFound, db)
    else if !(m.hasUser senderId) then (.error .forbidden, db)
    else
      let chat : ChatDoc := { cid := newCid, matchId := matchId,
                              sender := senderId, message := msg,
                              isRead := false, isDeleted := false,
                              createdAt := now }
      let db1 : DB := { db with chats := db.chats ++ [chat] }
      match m.getOtherUser senderId with
      | none => (.error .serverError, saveMatch db1 { m with lastMessageAt := now })
      | some otherUserId =>
        (.ok chat, saveMatch db1
          (MatchDoc.incrementUnread { m with lastMessageAt := now } otherUserId))

/-- GET /api/chats/:matchId: guards as for send, then the page of non-deleted
messages of the match is read newest first (sortDesc stands for the
createdAt-descending sort of the store) and reversed into chronological order;
as a side effect every unread non-deleted message of the match not sent by the
requester is marked read with a timestamp, and the unread counter of the
requester is reset to zero and saved. -/
def listMessages (db : DB) (matchId userId page limit now : Nat)
    (sortDesc : List ChatDoc → List ChatDoc) :
    Except ApiError (List ChatDoc) × DB :=
  match findMatch db matchId with
  | none => (.error .notFound, db)
  | some m =>
    if !m.isActive then (.error .notFound, db)
    else if !(m.hasUser userId) then (.error .forbidden, db)
    else
      let msgs := ((sortDesc (db.chats.filter
        (fun c => c.matchId == matchId && !c.isDeleted))).drop
        ((page - 1) * limit)).take limit
      let db1 : DB := { db with chats := db.chats.map (fun c =>
        if c.matchId == matchId && c.sender != userId && !c.isRead && !c.isDeleted
        then { c with isRead := true, readAt := some now } else c) }
      (.ok msgs.reverse, saveMatch db1 (m.resetUnread userId))

/-- C5: for an active match of the two distinct participants A and B, a send
by A creates the message, bumps the unread counter of B by exactly one,
leaves the counter of A alone and stamps lastMessageAt with the clock; a list
by A resets the counter of A to zero, leaves the counter of B (the sender)
untouched, and leaves every non-deleted message of the match sent by B marked
read in the store. -/
theorem send_and_list_unread_accounting (db : DB) (mid A B : Nat)
    (m : MatchDoc) (msg : String) (cid now page limit rnow : Nat)
    (sortDesc : List ChatDoc → List ChatDoc)
    (hm : findMatch db mid = some m) (husers : m.users = [A, B])
    (hAB : ¬ B = A) (hact : m.isActive = true) :
    ((sendMessage db mid A msg cid now).1 = .ok { cid := cid, matchId := mid,
                                                  sender := A, message := msg,
                                                  isRead := false,
                                                  isDeleted := false,
                                                  createdAt := now } ∧
      ∃ m1, findMatch (sendMessage db mid A msg cid now).2 mid = some m1 ∧
        m1.unreadCount B = m.unreadCount B + 1 ∧
        m1.unreadCount A = m.unreadCount A ∧
        m1.lastMessageAt = now) ∧
    ((∃ msgs, (listMessages db mid A page limit rnow sortDesc).1 = .ok msgs) ∧
      (∃ m2, findMatch (listMessages db mid A page limit rnow sortDesc).2 mid = some m2 ∧
        m2.unreadCount A = 0 ∧
        m2.unreadCount B = m.unreadCount B) ∧
      (∀ c ∈ (listMessages db mid A page limit rnow sortDesc).2.chats,
        c.matchId = mid → c.sender = B → c.isDeleted = false → c.isRead = true)) := by
  have hmid : m.mid = mid := mid_of_findMatch hm
  have hABne : ¬ A = B := fun h => hAB h.symm
  have hhasA : m.hasUser A = true := by
    unfold MatchDoc.hasUser
    rw [husers]
    simp
  have hother : m.getOtherUser A = some B := by
    unfold MatchDoc.getOtherUser
    rw [husers, List.find?_cons, show (A != A) = false by simp,
      List.find?_cons, show (B != A) = true by simp [hAB]]
  constructor
  · -- the send half
    have heq : sendMessage db mid A msg cid now =
        (.ok { cid := cid, matchId := mid, sender := A, message := msg,
               isRead := false, isDeleted := false, createdAt := now },
          saveMatch { db with chats := db.chats ++ [{ cid := cid, matchId := mid,
                                                      sender := A, message := msg,
                                                      isRead := false,
                                                      isDeleted := false,
                                                      createdAt := now }] }
            (MatchDoc.incrementUnread { m with lastMessageAt := now } B)) := by
      unfold sendMessage
      simp only [hm, hact, hhasA, hother, Bool.not_true, Bool.false_eq_true, if_false]
    refine ⟨by rw [heq], ⟨MatchDoc.incrementUnread { m with lastMessageAt := now } B,
      ?_, ?_, ?_, rfl⟩⟩
    · rw [heq]
      refine findMatch_saveMatch_self _ _ mid (by show m.mid = mid; exact hmid) ?_
      show (findMatch db mid).isSome = true
      rw [hm]
      rfl
    · show (if B = B then m.unreadCount B + 1 else m.unreadCount B) = m.unreadCount B + 1
      rw [if_pos rfl]
    · show (if A = B then m.unreadCount B + 1 else m.unreadCount A) = m.unreadCount A
      rw [if_neg hABne]
  · -- the list half
    have heq : listMessages db mid A page limit rnow sortDesc =
        (.ok (((sortDesc (db.chats.filter
            (fun c => c.matchId == mid && !c.isDeleted))).drop
            ((page - 1) * limit)).take limit).reverse,
          saveMatch { db with chats := db.chats.map (fun c =>
              if c.matchId == mid && c.sender != A && !c.isRead && !c.isDeleted
              then { c with isRead := true, readAt := some rnow } else c) }
            (m.resetUnread A)) := by
      unfold listMessages
      simp only [hm, hact, hhasA, Bool.not_true, Bool.false_eq_true, if_false]
    refine ⟨⟨_, by rw [heq]⟩, ⟨m.resetUnread A, ?_, ?_, ?_⟩, ?_⟩
    · rw [heq]
      refine findMatch_saveMatch_self _ _ mid (by show m.mid = mid; exact hmid) ?_
      show (findMatch db mid).isSome = true
      rw [hm]
      rfl
    · show (if A = A then 0 else m.unreadCount A) = 0
      rw [if_pos rfl]
    · show (if B = A then 0 else m.unreadCount B) = m.unreadCount B
      rw [if_neg hAB]
    · intro c hc hcm hcs hcd
      rw [heq] at hc
      have hc' : c ∈ db.chats.map (fun c =>
          if c.matchId == mid && c.sender != A && !c.isRead && !c.isDeleted
          then { c with isRead := true, readAt := some rnow } else c) := hc
      rcases List.mem_map.mp hc' with ⟨c0, hc0, hfc⟩
      by_cases hcond : (c0.matchId == mid && c0.sender != A && !c0.isRead
          && !c0.isDeleted) = true
      · rw [if_pos hcond] at hfc
        rw [← hfc]
      · rw [if_neg hcond] at hfc
        subst hfc
        by_contra hread
        apply hcond
        have hread' : c0.isRead = false := by
          cases h : c0.isRead
          · rfl
          · exact absurd h hread
        simp [hcm, hcs, hcd, hread', hAB]

/-- Match of the C5 witness state. -/
def mW5 : MatchDoc := { mid := 10, users := [1, 2] }

/-- C5 witness state: one active match between users 1 and 2, no messages. -/
def dbW5 : DB := { users := [], «matches» := [mW5], chats := [] }

/-- Witness for C5 at a concrete state: a send by user 1 in match 10 succeeds
and returns the created message. -/
theorem send_and_list_unread_accounting_witness :
    (sendMessage dbW5 10 1 "hi" 7 9).1 = .ok { cid := 7, matchId := 10,
                                               sender := 1, message := "hi",
                                               isRead := false,
                                               isDeleted := false,
                                               createdAt := 9 } :=
  (send_and_list_unread_accounting dbW5 10 1 2 mW5 "hi" 7 9 1 50 11
    (fun l => l) rfl rfl (by decide) rfl).1.1

/-- DELETE /api/matches/:matchId: existence and participant guards, then the
other participant is pulled from the matches list of the caller and the caller
from that of the other participant (findByIdAndUpdate on a missing user is a
no-op), and finally the match is deactivated and saved - the record itself is
kept. Were getOtherUser to find nobody, the two pulls would match nothing and
only the deactivation would happen. -/
def unmatch (db : DB) (matchId userId : Nat) : Except ApiError Unit × DB :=
  match findMatch db matchId with
  | none => (.error .notFound, db)
  | some m =>
    if !(m.hasUser userId) then (.error .forbidden, db)
    else
      match m.getOtherUser userId with
      | none => (.ok (), saveMatch db { m with isActive := false })
      | some otherUserId =>
        let db1 := match findUser db userId with
          | some u => saveUser db
              { u with «matches» := u.«matches».filter (fun i => i != otherUserId) }
          | none => db
        let db2 := match findUser db1 otherUserId with
          | some v => saveUser db1
              { v with «matches» := v.«matches».filter (fun i => i != userId) }
          | none => db1
        (.ok (), saveMatch db2 { m with isActive := false })

/-- Saving a match document never changes how many matches are stored. -/
theorem saveMatch_length (db : DB) (m : MatchDoc) :
    (saveMatch db m).«matches».length = db.«matches».length :=
  List.length_map _ _

/-- C6: when participant A unmatches the match of A and B, B is removed from
the matches list of A and A from that of B, the match is deactivated while the
record is retained (the collection keeps its length and the record is still
found, inactive), and any subsequent send on that match fails with NotFound;
a caller who is not a participant is refused with Forbidden and the store is
returned unchanged. -/
theorem unmatch_unlinks_deactivates_and_blocks_send (db : DB) (mid A B : Nat)
    (m : MatchDoc) (a b : UserDoc)
    (hm : findMatch db mid = some m) (husers : m.users = [A, B])
    (hAB : ¬ B = A) (ha : findUser db A = some a) (hb : findUser db B = some b) :
    (unmatch db mid A).1 = .ok () ∧
    findMatch (unmatch db mid A).2 mid = some { m with isActive := false } ∧
    findUser (unmatch db mid A).2 A =
      some { a with «matches» := a.«matches».filter (fun i => i != B) } ∧
    findUser (unmatch db mid A).2 B =
      some { b with «matches» := b.«matches».filter (fun i => i != A) } ∧
    (unmatch db mid A).2.«matches».length = db.«matches».length ∧
    (∀ s msg cid now, (sendMessage (unmatch db mid A).2 mid s msg cid now).1 =
      .error .notFound) ∧
    (∀ C, m.hasUser C = false → unmatch db mid C = (.error .forbidden, db)) := by
  have hmid : m.mid = mid := mid_of_findMatch hm
  have huA : a.uid = A := uid_of_findUser ha
  have huB : b.uid = B := uid_of_findUser hb
  have hABne : ¬ A = B := fun h => hAB h.symm
  have hhasA : m.hasUser A = true := by
    unfold MatchDoc.hasUser
    rw [husers]
    simp
  have hother : m.getOtherUser A = some B := by
    unfold MatchDoc.getOtherUser
    rw [husers, List.find?_cons, show (A != A) = false by simp,
      List.find?_cons, show (B != A) = true by simp [hAB]]
  have hfb1 : findUser (saveUser db
      { a with «matches» := a.«matches».filter (fun i => i != B) }) B = some b := by
    rw [findUser_saveUser_other _ _ _ (by show ¬ a.uid = B; rw [huA]; exact hABne)]
    exact hb
  have heq : unmatch db mid A = (.ok (), saveMatch
      (saveUser (saveUser db
        { a with «matches» := a.«matches».filter (fun i => i != B) })
        { b with «matches» := b.«matches».filter (fun i => i != A) })
      { m with isActive := false }) := by
    unfold unmatch
    simp only [hm, hhasA, hother, ha, hfb1, Bool.not_true, Bool.false_eq_true,
      if_false]
  have hfm : findMatch (unmatch db mid A).2 mid = some { m with isActive := false } := by
    rw [heq]
    refine findMatch_saveMatch_self _ _ mid (by show m.mid = mid; exact hmid) ?_
    show (findMatch db mid).isSome = true
    rw [hm]
    rfl
  refine ⟨by rw [heq], hfm, ?_, ?_, ?_, ?_, ?_⟩
  · rw [heq]
    show findUser (saveUser (saveUser db
      { a with «matches» := a.«matches».filter (fun i => i != B) })
      { b with «matches» := b.«matches».filter (fun i => i != A) }) A = _
    rw [findUser_saveUser_other _ _ _ (by show ¬ b.uid = A; rw [huB]; exact hAB)]
    exact findUser_saveUser_self _ _ A (by show a.uid = A; exact huA)
      (by rw [ha]; rfl)
  · rw [heq]
    show findUser (saveUser (saveUser db
      { a with «matches» := a.«matches».filter (fun i => i != B) })
      { b with «matches» := b.«matches».filter (fun i => i != A) }) B = _
    exact findUser_saveUser_self _ _ B (by show b.uid = B; exact huB)
      (by rw [hfb1]; rfl)
  · rw [heq]
    exact saveMatch_length _ _
  · intro s msg cid now
    have hfm' : findMatch (unmatch db mid A).2 mid = some { m with isActive := false } := hfm
    unfold sendMessage
    rw [hfm']
    rfl
  · intro C hC
    unfold unmatch
    simp only [hm, hC, Bool.not_false, if_true]

/-- Match of the C6 witness state. -/
def mW6 : MatchDoc := { mid := 20, users := [1, 2] }

/-- First participant of the C6 witness state. -/
def aW6 : UserDoc := { uid := 1, «matches» := [2] }

/-- Second participant of the C6 witness state. -/
def bW6 : UserDoc := { uid := 2, «matches» := [1] }

/-- C6 witness state: users 1 and 2 matched through match 20. -/
def dbW6 : DB := { users := [aW6, bW6], «matches» := [mW6], chats := [] }

/-- Witness for C6 at a concrete state: the unmatch call of a participant
succeeds there. -/
theorem unmatch_unlinks_deactivates_and_blocks_send_witness :
    (unmatch dbW6 20 1).1 = .ok () :=
  (unmatch_unlinks_deactivates_and_blocks_send dbW6 20 1 2 mW6 aW6 bW6
    rfl rfl (by decide) rfl rfl).1

/-- GET /api/chats/unread/count. Two facts about the source matter here: the
chats router file requires only the Chat and Match models, so the User model
this handler calls is not in scope at runtime (the request then ends in the
catch block with a 500); and user.matches holds ids of users (userSchema
declares matches as refs to User), yet the handler feeds those ids into the
matchId filter of the aggregation over chats. This definition models the data
flow as written, with the User lookup resolved; the aggregation result is the
per-key count of the filtered chats, keyed by matchId. Read-only. -/
def unreadSummaryCode (db : DB) (userId : Nat) :
    Except ApiError (List (Nat × Nat)) :=
  match findUser db userId with
  | none => .error .serverError
  | some user =>
    let relevant := db.chats.filter (fun c =>
      user.«matches».contains c.matchId && c.sender != userId &&
        !c.isRead && !c.isDeleted)
    .ok (((relevant.map (fun c => c.matchId)).eraseDups).map
      (fun i => (i, (relevant.filter (fun c => c.matchId == i)).length)))

/-- C7 state: users 1 and 2 are matched through match 100 (each carries the
other user id in its matches list, as the like handler maintains), and user 2
has sent one unread message in that match. -/
def dbC7 : DB :=
  { users := [{ uid := 1, «matches» := [2] }, { uid := 2, «matches» := [1] }],
    «matches» := [{ mid := 100, users := [1, 2] }],
    chats := [{ cid := 1, matchId := 100, sender := 2, createdAt := 3 }] }

/-- C7 fails on the code: user 1 has exactly one active match (id 100) holding
one unread non-deleted message from the other side, so the claimed summary is
the single pair of match 100 with count 1; but the handler keys the chat
aggregation by the entries of user.matches, which are user ids, not match ids
(and the router never imports the User model it calls, so the live route can
only answer 500), and the returned mapping is empty. -/
theorem unread_summary_misses_real_matches :
    unreadSummaryCode dbC7 1 = .ok [] ∧
    (dbC7.«matches».filter (fun m => m.isActive && m.hasUser 1)).map
      MatchDoc.mid = [100] ∧
    (dbC7.chats.filter (fun c => c.matchId == 100 && c.sender != 1 &&
      !c.isRead && !c.isDeleted)).length = 1 :=
  ⟨rfl, rfl, rfl⟩

/-- What the super-like route produces for the caller: a 403 when the caller
is not premium, otherwise no response at all. -/
inductive SuperLikeOutcome
  | forbiddenPremium
  | noResponse
  | serverFailure
deriving Repr, DecidableEq

/-- POST /api/discovery/super-like: reads the current user and checks premium;
then the line calling router.post with the like path, the middlewares, req and
res invokes the route-registration method of the Express router, which adds a
new route layer and returns the router object - it does not dispatch the like
handler. So past the premium check no like is recorded, no document is written
and no response is ever sent; a missing current user would make the premium
check throw and answer 500. -/
def superLike (db : DB) (currentUserId targetUserId now : Nat) :
    SuperLikeOutcome × DB :=
  match findUser db currentUserId with
  | none => (.serverFailure, db)
  | some cur =>
    if !(cur.isPremiumActive now) then (.forbiddenPremium, db)
    else (.noResponse, db)

/-- C8 state: premium user 1 and an eligible target 2. -/
def dbC8 : DB :=
  { users := [{ uid := 1, isPremium := true }, { uid := 2 }],
    «matches» := [], chats := [] }

/-- C8 fails on the code: for a premium caller, super-like leaves the store
exactly as it was and sends no response, while the like route on the same
input persists the like (the likes list of user 1 gains user 2) and answers
ok - so the two routes are not behaviorally identical; the comment in the
source announces a forwarding to like, but registering a route with
router.post does not invoke it. -/
theorem superLike_is_not_like :
    superLike dbC8 1 2 0 = (.noResponse, dbC8) ∧
    (likeUser dbC8 1 2 101 0).1 = .ok { isMatch := false, matchId := none } ∧
    ((findUser (likeUser dbC8 1 2 101 0).2 1).map UserDoc.likes) = some [2] ∧
    ((findUser (superLike dbC8 1 2 0).2 1).map UserDoc.likes) = some [] :=
  ⟨rfl, rfl, rfl, rfl⟩

/-- The two-argument arctangent as in the usual library definition, applied by
the distance helper to the square roots of a and 1 - a. -/
noncomputable def atan2 (y x : ℝ) : ℝ :=
  if 0 < x then Real.arctan (y / x)
  else if x < 0 then
    (if 0 ≤ y then Real.arctan (y / x) + Real.pi
     else Real.arctan (y / x) - Real.pi)
  else if 0 < y then Real.pi / 2
  else if y < 0 then -(Real.pi / 2)
  else 0

/-- The intermediate value a of calculateDistance: the haversine combination
of the two coordinates after degree-to-radian conversion. -/
noncomputable def haversine_a (lat1 lon1 lat2 lon2 : ℝ) : ℝ :=
  Real.sin ((lat2 - lat1) * Real.pi / 180 / 2) *
      Real.sin ((lat2 - lat1) * Real.pi / 180 / 2) +
    Real.cos (lat1 * Real.pi / 180) * Real.cos (lat2 * Real.pi / 180) *
      (Real.sin ((lon2 - lon1) * Real.pi / 180 / 2) *
        Real.sin ((lon2 - lon1) * Real.pi / 180 / 2))

/-- calculateDistance of the discovery router: the great-circle distance in
kilometers on an Earth radius of 6371, modelled over the real numbers. -/
noncomputable def calculateDistance (lat1 lon1 lat2 lon2 : ℝ) : ℝ :=
  6371 * (2 * atan2 (Real.sqrt (haversine_a lat1 lon1 lat2 lon2))
    (Real.sqrt (1 - haversine_a lat1 lon1 lat2 lon2)))

/-- C9: the distance computed by calculateDistance is symmetric in its two
coordinate pairs - exactly, hence in particular within any rounding
tolerance. -/
theorem calculateDistance_symm (lat1 lon1 lat2 lon2 : ℝ) :
    calculateDistance lat1 lon1 lat2 lon2 = calculateDistance lat2 lon2 lat1 lon1 := by
  have h : haversine_a lat1 lon1 lat2 lon2 = haversine_a lat2 lon2 lat1 lon1 := by
    unfold haversine_a
    have h1 : (lat1 - lat2) * Real.pi / 180 / 2 =
        -((lat2 - lat1) * Real.pi / 180 / 2) := by ring
    have h2 : (lon1 - lon2) * Real.pi / 180 / 2 =
        -((lon2 - lon1) * Real.pi / 180 / 2) := by ring
    rw [h1, h2, Real.sin_neg, Real.sin_neg]
    ring
  unfold calculateDistance
  rw [h]
